import Mathlib

/-!
Verification development for the QA report downloader
(`report_downloader_app.py`): shallow embedding of the document-rendering
pipeline (`_apply_finding_color_to_run`, `generate_docx_from_combined_json`)
and the report assembler (`fetch_combined_analysis_data`), together with
theorems settling the specification claims.
-/

namespace PhoneQA

/-! ## Python values rendered into text

The renderer receives a Python dict; the values interpolated into f-strings
are strings, ints, or `None`.  `Value.render` is Python `str()` on these. -/

inductive Value where
  | str : String → Value
  | int : Int → Value
  | null : Value
deriving DecidableEq

def Value.render : Value → String
  | .str s => s
  | .int n => toString n
  | .null => "None"

/-! ## The nested report record (`json_data` dict)

Each `Option` models presence/absence of the corresponding dict key, matching
Python `dict.get(key, default)`. -/

structure JsonHeader where
  agent_name : Option Value
  number_of_reports_successfully_analyzed : Option Value
  analysis_period_note : Option Value
deriving DecidableEq

def emptyJsonHeader : JsonHeader := ⟨none, none, none⟩

structure FocusItem where
  area : Option String
  specific_actions : Option (List String)
deriving DecidableEq

structure QpaItem where
  quality_point : Option String
  trend_observation : Option String
  coaching_recommendation_for_point : Option String
deriving DecidableEq

structure JsonSummary where
  overall_strengths_observed : Option (List String)
  overall_areas_for_development : Option (List String)
  consolidated_coaching_focus : Option (List FocusItem)
deriving DecidableEq

def emptyJsonSummary : JsonSummary := ⟨none, none, none⟩

structure JsonData where
  report_header : Option JsonHeader
  qualitative_summary_and_coaching_plan : Option JsonSummary
  detailed_quality_point_analysis : Option (List QpaItem)
deriving DecidableEq

/-! ## `_apply_finding_color_to_run`

`run` carries a colour and a bold flag, each `none` when never set.  The
Python guard `if not finding_text: return` fires on `None` and `""`;
otherwise the colour is set on a case-insensitive match and `run.bold = True`
executes unconditionally. -/

structure RunStyle where
  color : Option (Nat × Nat × Nat)
  bold : Option Bool
deriving DecidableEq

/-- Python `str.lower()`, character by character (ASCII case folding; the
finding comparisons only involve ASCII letters). -/
def pyLower (s : String) : String := ⟨s.data.map Char.toLower⟩

def darkGreen : Nat × Nat × Nat := (0x00, 0x64, 0x00)
def darkRed : Nat × Nat × Nat := (0xC0, 0x00, 0x00)
def darkBlue : Nat × Nat × Nat := (0x00, 0x00, 0x8B)

def apply_finding_color_to_run (st : RunStyle) (finding_text : Option String) : RunStyle :=
  match finding_text with
  | none => st
  | some t =>
    if t = "" then st
    else
      let c :=
        if pyLower t = "positive" then some darkGreen
        else if pyLower t = "negative" then some darkRed
        else if pyLower t = "neutral" then some darkBlue
        else st.color
      { color := c, bold := some true }

/-! ## Document model

`generate_docx_from_combined_json` emits headings, paragraphs (with an
optional list style), one bold lead-in run paragraph, and one table. -/

inductive DocElem where
  | heading : Nat → String → DocElem
  | paragraph : String → Option String → DocElem
  | boldRunParagraph : String → DocElem
  | table : List (List String) → DocElem
deriving DecidableEq

def summaryParagraphText (h : JsonHeader) : String :=
  "Analysis based on " ++ (h.number_of_reports_successfully_analyzed.getD (Value.str "N/A")).render
    ++ " calls. Period: " ++ (h.analysis_period_note.getD (Value.str "N/A")).render

def titleSection (h : JsonHeader) : List DocElem :=
  [DocElem.heading 1 ("Performance Trend Analysis & Coaching Report: "
      ++ (h.agent_name.getD (Value.str "N/A")).render),
   DocElem.paragraph (summaryParagraphText h) none]

def strengthsHeadingText : String := "Key Strengths & Consistent Positive Performance"
def devAreasHeadingText : String := "Areas for Development & Recurring Challenges"
def coachingHeadingText : String := "Consolidated Coaching & Development Plan"
def qpaHeadingText : String := "Detailed Quality Point Analysis"

def strengthsSection (qs : JsonSummary) : List DocElem :=
  let strengths := qs.overall_strengths_observed.getD []
  if strengths = [] then []
  else DocElem.heading 2 strengthsHeadingText
    :: strengths.map (fun s => DocElem.paragraph s (some "ListBullet"))

def devAreasSection (qs : JsonSummary) : List DocElem :=
  let dev_areas := qs.overall_areas_for_development.getD []
  if dev_areas = [] then []
  else DocElem.heading 2 devAreasHeadingText
    :: dev_areas.map (fun s => DocElem.paragraph s (some "ListBullet"))

def focusSection (f : FocusItem) : List DocElem :=
  DocElem.heading 3 (f.area.getD "Focus Area") ::
    (let recommendations := f.specific_actions.getD []
     if recommendations = [] then []
     else DocElem.boldRunParagraph "Actionable Recommendations:"
       :: recommendations.map (fun r => DocElem.paragraph r (some "ListNumber")))

def coachingSection (qs : JsonSummary) : List DocElem :=
  let coaching_items := qs.consolidated_coaching_focus.getD []
  if coaching_items = [] then []
  else DocElem.heading 2 coachingHeadingText :: (coaching_items.map focusSection).flatten

def qpaHeaderRow : List String := ["Quality Point", "Trend Observation", "Coaching Recommendation"]

def qpaDataRow (item : QpaItem) : List String :=
  [item.quality_point.getD "N/A",
   item.trend_observation.getD "N/A",
   item.coaching_recommendation_for_point.getD "N/A"]

def qpaSection (detailed_qpa : List QpaItem) : List DocElem :=
  if detailed_qpa = [] then []
  else [DocElem.heading 2 qpaHeadingText,
        DocElem.table (qpaHeaderRow :: detailed_qpa.map qpaDataRow)]

def generate_docx_elems (json_data : JsonData) : List DocElem :=
  let header := json_data.report_header.getD emptyJsonHeader
  let qs := json_data.qualitative_summary_and_coaching_plan.getD emptyJsonSummary
  titleSection header ++ strengthsSection qs ++ devAreasSection qs
    ++ coachingSection qs ++ qpaSection (json_data.detailed_quality_point_analysis.getD [])

/-! ## Relational schema (§6 of the source's queries)

Columns that may hold SQL NULL in the header row are modelled as `Value`
(so `Value.null` is NULL); text columns used only as strings stay `String`. -/

structure AgentRow where
  AgentID : Int
  AgentName : String
deriving DecidableEq

structure CombinedAnalysisRow where
  CombinedAnalysisID : Int
  AgentID : Int
  NumberOfReportsSuccessfullyAnalyzed : Value
  AnalysisPeriodNote : Value
  AnalysisDateTime : String
deriving DecidableEq

structure StrengthRow where
  CombinedAnalysisID : Int
  StrengthText : String
deriving DecidableEq

structure DevelopmentAreaRow where
  CombinedAnalysisID : Int
  DevelopmentAreaText : String
deriving DecidableEq

structure CoachingFocusRow where
  CoachingFocusID : Int
  CombinedAnalysisID : Int
  AreaText : String
deriving DecidableEq

structure CoachingActionRow where
  CoachingFocusID : Int
  ActionText : String
deriving DecidableEq

structure QualityPointDetailRow where
  CombinedAnalysisID : Int
  QualityPointID : Int
  TrendObservation : String
deriving DecidableEq

structure QualityPointMasterRow where
  QualityPointID : Int
  QualityPointText : String
deriving DecidableEq

structure Database where
  agents : List AgentRow
  combinedAnalyses : List CombinedAnalysisRow
  strengths : List StrengthRow
  developmentAreas : List DevelopmentAreaRow
  coachingFocus : List CoachingFocusRow
  coachingActions : List CoachingActionRow
  qualityPointDetails : List QualityPointDetailRow
  qualityPointsMaster : List QualityPointMasterRow
deriving DecidableEq

/-- Rows of `SELECT * FROM CombinedAnalyses c JOIN Agents a ON c.AgentID =
a.AgentID WHERE c.CombinedAnalysisID = ?` (nested-loop join order). -/
def mainJoinRows (db : Database) (analysisId : Int) : List (CombinedAnalysisRow × AgentRow) :=
  (db.combinedAnalyses.filter (fun c => c.CombinedAnalysisID == analysisId)).flatMap
    (fun c => (db.agents.filter (fun a => a.AgentID == c.AgentID)).map (fun a => (c, a)))

/-- Query `SELECT StrengthText FROM CombinedAnalysisStrengths WHERE CombinedAnalysisID = ?`. -/
def strengthsRows (db : Database) (analysisId : Int) : List String :=
  (db.strengths.filter (fun r => r.CombinedAnalysisID == analysisId)).map
    (fun r => r.StrengthText)

/-- Query `SELECT DevelopmentAreaText FROM CombinedAnalysisDevelopmentAreas WHERE CombinedAnalysisID = ?`. -/
def devAreaRows (db : Database) (analysisId : Int) : List String :=
  (db.developmentAreas.filter (fun r => r.CombinedAnalysisID == analysisId)).map
    (fun r => r.DevelopmentAreaText)

/-- Query `SELECT CoachingFocusID, AreaText FROM CombinedAnalysisCoachingFocus WHERE CombinedAnalysisID = ?`. -/
def coachingFocusRows (db : Database) (analysisId : Int) : List CoachingFocusRow :=
  db.coachingFocus.filter (fun r => r.CombinedAnalysisID == analysisId)

/-- Query `SELECT ActionText FROM CombinedAnalysisCoachingActions WHERE CoachingFocusID = ?`. -/
def actionsRows (db : Database) (coachingFocusId : Int) : List String :=
  (db.coachingActions.filter (fun r => r.CoachingFocusID == coachingFocusId)).map
    (fun r => r.ActionText)

/-- Rows of the detail query joining `CombinedAnalysisQualityPointDetails`
with `QualityPointsMaster` on `QualityPointID`, scoped to the analysis:
pairs `(QualityPointText, TrendObservation)`. -/
def detailJoinRows (db : Database) (analysisId : Int) : List (String × String) :=
  (db.qualityPointDetails.filter (fun d => d.CombinedAnalysisID == analysisId)).flatMap
    (fun d => (db.qualityPointsMaster.filter (fun qp => qp.QualityPointID == d.QualityPointID)).map
      (fun qp => (qp.QualityPointText, d.TrendObservation)))

/-! ## The assembler with an explicit fault oracle

`fetch_combined_analysis_data` runs its queries inside one `try`; any
`pyodbc` fault raises at the faulting `cursor.execute`, is caught at the
function boundary, shown via `messagebox.showerror`, and turned into `None`.
`FetchEnv.faultAt` decides, per query, whether that execution raises (and
with what message).  The outcome records the returned value, the error text
shown (if any), and the queries issued, in program order. -/

inductive Query where
  | mainJoin : Int → Query
  | strengthsQuery : Int → Query
  | devAreasQuery : Int → Query
  | focusQuery : Int → Query
  | actionsQuery : Int → Query
  | detailsQuery : Int → Query
deriving DecidableEq

structure FetchEnv where
  db : Database
  faultAt : Query → Option String

def dbErrorMessage (e : String) : String :=
  "An error occurred while fetching report details:\n" ++ e

structure FetchOutcome where
  report : Option JsonData
  errorShown : Option String
  trace : List Query
deriving DecidableEq

/-- The per-focus loop: one `CombinedAnalysisCoachingActions` query per focus
row, building the `{"area": ..., "specific_actions": ...}` dicts in row
order; a fault aborts the loop with the raised message. -/
def fetchFocusItems (env : FetchEnv) : List CoachingFocusRow → Except String (List FocusItem) × List Query
  | [] => (.ok [], [])
  | f :: rest =>
    let q := Query.actionsQuery f.CoachingFocusID
    match env.faultAt q with
    | some e => (.error e, [q])
    | none =>
      let item : FocusItem := ⟨some f.AreaText, some (actionsRows env.db f.CoachingFocusID)⟩
      match fetchFocusItems env rest with
      | (.ok items, qs) => (.ok (item :: items), q :: qs)
      | (.error e, qs) => (.error e, q :: qs)

def fetch_combined_analysis_data_env (env : FetchEnv) (analysisId : Int) : FetchOutcome :=
  let q1 := Query.mainJoin analysisId
  match env.faultAt q1 with
  | some e => ⟨none, some (dbErrorMessage e), [q1]⟩
  | none =>
    match mainJoinRows env.db analysisId with
    | [] => ⟨none, none, [q1]⟩
    | (c, a) :: _ =>
      let q2 := Query.strengthsQuery analysisId
      match env.faultAt q2 with
      | some e => ⟨none, some (dbErrorMessage e), [q1, q2]⟩
      | none =>
        let strengths := strengthsRows env.db analysisId
        let q3 := Query.devAreasQuery analysisId
        match env.faultAt q3 with
        | some e => ⟨none, some (dbErrorMessage e), [q1, q2, q3]⟩
        | none =>
          let dev_areas := devAreaRows env.db analysisId
          let q4 := Query.focusQuery analysisId
          match env.faultAt q4 with
          | some e => ⟨none, some (dbErrorMessage e), [q1, q2, q3, q4]⟩
          | none =>
            match fetchFocusItems env (coachingFocusRows env.db analysisId) with
            | (.error e, qs) => ⟨none, some (dbErrorMessage e), [q1, q2, q3, q4] ++ qs⟩
            | (.ok focusItems, qs) =>
              let q5 := Query.detailsQuery analysisId
              match env.faultAt q5 with
              | some e => ⟨none, some (dbErrorMessage e), [q1, q2, q3, q4] ++ qs ++ [q5]⟩
              | none =>
                let qpaItems := (detailJoinRows env.db analysisId).map
                  (fun p => (⟨some p.1, some p.2, some ""⟩ : QpaItem))
                ⟨some {
                    report_header := some ⟨some (Value.str a.AgentName),
                      some c.NumberOfReportsSuccessfullyAnalyzed,
                      some c.AnalysisPeriodNote⟩,
                    qualitative_summary_and_coaching_plan := some ⟨some strengths,
                      some dev_areas, some focusItems⟩,
                    detailed_quality_point_analysis := some qpaItems },
                  none, [q1, q2, q3, q4] ++ qs ++ [q5]⟩

/-- The fault-free environment for a database. -/
def noFaultEnv (db : Database) : FetchEnv := ⟨db, fun _ => none⟩

/-- The function `fetch_combined_analysis_data` under normal (fault-free) data access:
the value the Python function returns. -/
def fetch_combined_analysis_data (db : Database) (analysisId : Int) : Option JsonData :=
  (fetch_combined_analysis_data_env (noFaultEnv db) analysisId).report

/-- The report constructed once the root join produced head row `(c, a)`. -/
def assembledReport (db : Database) (analysisId : Int)
    (c : CombinedAnalysisRow) (a : AgentRow) : JsonData :=
  { report_header := some ⟨some (Value.str a.AgentName),
      some c.NumberOfReportsSuccessfullyAnalyzed, some c.AnalysisPeriodNote⟩,
    qualitative_summary_and_coaching_plan := some ⟨some (strengthsRows db analysisId),
      some (devAreaRows db analysisId),
      some ((coachingFocusRows db analysisId).map
        (fun f => ⟨some f.AreaText, some (actionsRows db f.CoachingFocusID)⟩))⟩,
    detailed_quality_point_analysis := some ((detailJoinRows db analysisId).map
      (fun p => ⟨some p.1, some p.2, some ""⟩)) }

/-! ## The renderer boundary (`generate_docx_from_combined_json`)

The whole body runs in one `try`; building the document is pure here, while
`doc.save(docx_filepath)` may raise depending on the destination.  A raise is
caught at the boundary, shown via `messagebox.showerror`, and turned into
`False`; `True` is returned only after the save completed.  `written` is the
document persisted at the destination, `none` when nothing was saved. -/

structure RenderEnv where
  saveFault : String → Option String

def docxErrorMessage (e : String) : String :=
  "Failed to generate the .docx file:\n" ++ e

structure RenderOutcome where
  ok : Bool
  errorShown : Option String
  written : Option (List DocElem)
deriving DecidableEq

def generate_docx_from_combined_json (env : RenderEnv) (json_data : JsonData)
    (docx_filepath : String) : RenderOutcome :=
  match env.saveFault docx_filepath with
  | some e => ⟨false, some (docxErrorMessage e), none⟩
  | none => ⟨true, none, some (generate_docx_elems json_data)⟩

/-! ## Example data (the §8 scenario: analysis 42 of agent "J. Smith") -/

def exampleAgent : AgentRow := ⟨7, "J. Smith"⟩

def exampleAnalysis : CombinedAnalysisRow :=
  ⟨42, 7, Value.int 12, Value.str "Q1 2024", "2024-03-31"⟩

def exampleDb : Database :=
  { agents := [exampleAgent],
    combinedAnalyses := [exampleAnalysis],
    strengths := [⟨42, "Clear tone"⟩],
    developmentAreas := [],
    coachingFocus := [⟨5, 42, "Hold Procedure"⟩],
    coachingActions := [⟨5, "Confirm before hold"⟩],
    qualityPointDetails := [⟨42, 3, "Consistent"⟩],
    qualityPointsMaster := [⟨3, "Greeting"⟩] }

def exampleQpaItem : QpaItem := ⟨some "Greeting", some "Consistent", some ""⟩

def exampleJson : JsonData :=
  { report_header := some ⟨some (Value.str "J. Smith"), some (Value.int 12),
      some (Value.str "Q1 2024")⟩,
    qualitative_summary_and_coaching_plan := some ⟨some ["Clear tone"], some [],
      some [⟨some "Hold Procedure", some ["Confirm before hold"]⟩]⟩,
    detailed_quality_point_analysis := some [exampleQpaItem] }

/-! ## Reduction of the assembler in the fault-free environment -/

lemma fetchFocusItems_noFault (db : Database) (rows : List CoachingFocusRow) :
    fetchFocusItems (noFaultEnv db) rows =
      (.ok (rows.map fun f => ⟨some f.AreaText, some (actionsRows db f.CoachingFocusID)⟩),
       rows.map fun f => Query.actionsQuery f.CoachingFocusID) := by
  induction rows with
  | nil => rfl
  | cons f rest ih =>
    simp only [noFaultEnv] at ih
    simp [fetchFocusItems, noFaultEnv, ih]

lemma fetch_env_noFault (db : Database) (analysisId : Int) :
    fetch_combined_analysis_data_env (noFaultEnv db) analysisId =
      match mainJoinRows db analysisId with
      | [] => ⟨none, none, [Query.mainJoin analysisId]⟩
      | (c, a) :: _ =>
        ⟨some (assembledReport db analysisId c a), none,
         [Query.mainJoin analysisId, Query.strengthsQuery analysisId,
          Query.devAreasQuery analysisId, Query.focusQuery analysisId]
           ++ (coachingFocusRows db analysisId).map (fun f => Query.actionsQuery f.CoachingFocusID)
           ++ [Query.detailsQuery analysisId]⟩ := by
  cases h : mainJoinRows db analysisId with
  | nil =>
    simp [fetch_combined_analysis_data_env, noFaultEnv, h]
  | cons p rest =>
    obtain ⟨c, a⟩ := p
    have hf := fetchFocusItems_noFault db (coachingFocusRows db analysisId)
    simp only [noFaultEnv] at hf
    simp [fetch_combined_analysis_data_env, noFaultEnv, h, hf, assembledReport]

lemma fetch_combined_eq (db : Database) (analysisId : Int) :
    fetch_combined_analysis_data db analysisId =
      match mainJoinRows db analysisId with
      | [] => none
      | (c, a) :: _ => some (assembledReport db analysisId c a) := by
  unfold fetch_combined_analysis_data
  rw [fetch_env_noFault]
  cases mainJoinRows db analysisId with
  | nil => rfl
  | cons p rest => obtain ⟨c, a⟩ := p; rfl

/-! ## Claim theorems -/

/-- Claim C1 counterexample: the finding value "Mixed" matches none of the
three colours, yet the rendered run is still bolded (`run.bold = True` runs
unconditionally once the text is non-empty), so "any other value … receives
no color and no bold override" is false. -/
theorem c1_counterexample :
    apply_finding_color_to_run ⟨none, none⟩ (some "Mixed") = ⟨none, some true⟩ ∧
    apply_finding_color_to_run ⟨none, none⟩ (some "Mixed") ≠ ⟨none, none⟩ := by
  decide

/-- Claim C1 (amended): a case-insensitive match on "positive"/"negative"/
"neutral" colours the run dark green/dark red/dark blue and bolds it; an
absent or empty finding leaves the run untouched; any other non-empty value
leaves the colour untouched but still bolds the run. -/
theorem c1_finding_styling (st : RunStyle) (t : String) :
    apply_finding_color_to_run st none = st ∧
    apply_finding_color_to_run st (some "") = st ∧
    (pyLower t = "positive" →
      apply_finding_color_to_run st (some t) = ⟨some darkGreen, some true⟩) ∧
    (pyLower t = "negative" →
      apply_finding_color_to_run st (some t) = ⟨some darkRed, some true⟩) ∧
    (pyLower t = "neutral" →
      apply_finding_color_to_run st (some t) = ⟨some darkBlue, some true⟩) ∧
    (t ≠ "" → pyLower t ≠ "positive" → pyLower t ≠ "negative" → pyLower t ≠ "neutral" →
      apply_finding_color_to_run st (some t) = ⟨st.color, some true⟩) := by
  have hne : ∀ w : String, w ≠ "" → pyLower w = pyLower w := fun _ _ => rfl
  refine ⟨rfl, rfl, ?_, ?_, ?_, ?_⟩
  · intro h
    have ht : t ≠ "" := by
      intro he; subst he; exact absurd h (by decide)
    simp [apply_finding_color_to_run, ht, h]
  · intro h
    have ht : t ≠ "" := by
      intro he; subst he; exact absurd h (by decide)
    simp [apply_finding_color_to_run, ht, h]
  · intro h
    have ht : t ≠ "" := by
      intro he; subst he; exact absurd h (by decide)
    simp [apply_finding_color_to_run, ht, h]
  · intro ht h1 h2 h3
    simp [apply_finding_color_to_run, ht, h1, h2, h3]

/-- Witness for C1: the matched finding "Positive" is coloured dark green and
bolded. -/
theorem c1_finding_styling_witness :
    apply_finding_color_to_run ⟨none, none⟩ (some "Positive")
      = ⟨some darkGreen, some true⟩ :=
  (c1_finding_styling ⟨none, none⟩ "Positive").2.2.1 (by decide)

/-- Claim C3: when the root-analysis/agent join yields no row (and the root
query itself does not fault), the assembler returns NotFound (`None`) at
once: no report, no error dialog, and the trace shows the root query was the
only one issued. -/
theorem c3_notfound_immediate (env : FetchEnv) (analysisId : Int)
    (hq : env.faultAt (Query.mainJoin analysisId) = none)
    (h : mainJoinRows env.db analysisId = []) :
    fetch_combined_analysis_data_env env analysisId =
      ⟨none, none, [Query.mainJoin analysisId]⟩ := by
  simp [fetch_combined_analysis_data_env, hq, h]

/-- Witness for C3: an empty database yields NotFound with a single issued
query. -/
theorem c3_notfound_immediate_witness :
    fetch_combined_analysis_data_env (noFaultEnv ⟨[], [], [], [], [], [], [], []⟩) 1 =
      ⟨none, none, [Query.mainJoin 1]⟩ :=
  c3_notfound_immediate (noFaultEnv ⟨[], [], [], [], [], [], [], []⟩) 1 rfl rfl

/-- Claim C5: when the root join yields a head row `(c, a)`, the assembler
returns a report whose header fields are exactly the joined row's agent name,
analyzed-report count, and period note. -/
theorem c5_header_from_join (db : Database) (analysisId : Int)
    (c : CombinedAnalysisRow) (a : AgentRow) (rest : List (CombinedAnalysisRow × AgentRow))
    (h : mainJoinRows db analysisId = (c, a) :: rest) :
    fetch_combined_analysis_data db analysisId = some (assembledReport db analysisId c a) ∧
    (assembledReport db analysisId c a).report_header =
      some ⟨some (Value.str a.AgentName), some c.NumberOfReportsSuccessfullyAnalyzed,
        some c.AnalysisPeriodNote⟩ := by
  refine ⟨?_, rfl⟩
  rw [fetch_combined_eq, h]

/-- Witness for C5: in the example database the assembled header carries
"J. Smith", 12, and "Q1 2024" from the joined row. -/
theorem c5_header_from_join_witness :
    fetch_combined_analysis_data exampleDb 42
      = some (assembledReport exampleDb 42 exampleAnalysis exampleAgent) ∧
    (assembledReport exampleDb 42 exampleAnalysis exampleAgent).report_header =
      some ⟨some (Value.str exampleAgent.AgentName),
        some exampleAnalysis.NumberOfReportsSuccessfullyAnalyzed,
        some exampleAnalysis.AnalysisPeriodNote⟩ :=
  c5_header_from_join exampleDb 42 exampleAnalysis exampleAgent [] (by decide)

/-- Claim C2 counterexample: the assembler always stores the empty string in
`coaching_recommendation_for_point`, the key is therefore present, and
`item.get("coaching_recommendation_for_point", "N/A")` returns `""`: the
rendered third cell of the data row is empty, not "N/A". -/
theorem c2_counterexample :
    fetch_combined_analysis_data exampleDb 42 = some exampleJson ∧
    DocElem.table [qpaHeaderRow, ["Greeting", "Consistent", ""]]
      ∈ generate_docx_elems exampleJson ∧
    ("" : String) ≠ "N/A" := by
  decide

/-- Claim C2 (amended): the "N/A" default fires only when the
coaching-recommendation key is absent from the detail dict; reports produced
by the assembler always carry the empty string under that key, so their
rendered cell is the empty string, not "N/A". -/
theorem c2_recommendation_cell (db : Database) (analysisId : Int) (jd : JsonData)
    (l : List QpaItem) (item : QpaItem) :
    (item.coaching_recommendation_for_point = none →
      qpaDataRow item =
        [item.quality_point.getD "N/A", item.trend_observation.getD "N/A", "N/A"]) ∧
    (fetch_combined_analysis_data db analysisId = some jd →
      jd.detailed_quality_point_analysis = some l → item ∈ l →
      item.coaching_recommendation_for_point = some "" ∧
      qpaDataRow item =
        [item.quality_point.getD "N/A", item.trend_observation.getD "N/A", ""]) := by
  constructor
  · intro h
    simp [qpaDataRow, h]
  · intro hfetch hqpa hmem
    rw [fetch_combined_eq] at hfetch
    cases hm : mainJoinRows db analysisId with
    | nil => rw [hm] at hfetch; exact absurd hfetch (by simp)
    | cons p rest =>
      obtain ⟨c, a⟩ := p
      rw [hm] at hfetch
      simp only [Option.some.injEq] at hfetch
      subst hfetch
      simp only [assembledReport, Option.some.injEq] at hqpa
      subst hqpa
      simp only [List.mem_map] at hmem
      obtain ⟨pair, _, hitem⟩ := hmem
      subst hitem
      simp [qpaDataRow]

/-- Witness for C2 (amended): the detail row assembled for analysis 42
carries the empty string and renders an empty third cell. -/
theorem c2_recommendation_cell_witness :
    exampleQpaItem.coaching_recommendation_for_point = some "" ∧
    qpaDataRow exampleQpaItem =
      [exampleQpaItem.quality_point.getD "N/A",
       exampleQpaItem.trend_observation.getD "N/A", ""] :=
  (c2_recommendation_cell exampleDb 42 exampleJson [exampleQpaItem] exampleQpaItem).2
    (by decide) (by decide) (by decide)

/-- Claim C9: every report the assembler returns has the fixed complete
shape: header, summary, and detail sections present; all child collections
present as lists; every coaching-focus entry carrying both an area label and
an actions list; and every detail's coaching-recommendation field exactly the
empty string. -/
theorem c9_assembled_shape (db : Database) (analysisId : Int) (jd : JsonData)
    (h : fetch_combined_analysis_data db analysisId = some jd) :
    jd.report_header.isSome = true ∧
    (∃ s, jd.qualitative_summary_and_coaching_plan = some s ∧
      s.overall_strengths_observed.isSome = true ∧
      s.overall_areas_for_development.isSome = true ∧
      ∃ foci, s.consolidated_coaching_focus = some foci ∧
        ∀ f ∈ foci, f.area.isSome = true ∧ f.specific_actions.isSome = true) ∧
    (∃ l, jd.detailed_quality_point_analysis = some l ∧
      ∀ item ∈ l, item.coaching_recommendation_for_point = some "") := by
  rw [fetch_combined_eq] at h
  cases hm : mainJoinRows db analysisId with
  | nil => rw [hm] at h; exact absurd h (by simp)
  | cons p rest =>
    obtain ⟨c, a⟩ := p
    rw [hm] at h
    simp only [Option.some.injEq] at h
    subst h
    refine ⟨rfl, ⟨_, rfl, rfl, rfl, _, rfl, ?_⟩, ⟨_, rfl, ?_⟩⟩
    · intro f hf
      simp only [List.mem_map] at hf
      obtain ⟨row, _, hrow⟩ := hf
      subst hrow
      exact ⟨rfl, rfl⟩
    · intro item hitem
      simp only [List.mem_map] at hitem
      obtain ⟨pair, _, hpair⟩ := hitem
      subst hpair
      rfl

/-- Witness for C9: the report assembled for analysis 42 has the complete
shape. -/
theorem c9_assembled_shape_witness :
    exampleJson.report_header.isSome = true ∧
    (∃ s, exampleJson.qualitative_summary_and_coaching_plan = some s ∧
      s.overall_strengths_observed.isSome = true ∧
      s.overall_areas_for_development.isSome = true ∧
      ∃ foci, s.consolidated_coaching_focus = some foci ∧
        ∀ f ∈ foci, f.area.isSome = true ∧ f.specific_actions.isSome = true) ∧
    (∃ l, exampleJson.detailed_quality_point_analysis = some l ∧
      ∀ item ∈ l, item.coaching_recommendation_for_point = some "") :=
  c9_assembled_shape exampleDb 42 exampleJson (by decide)

/-- Claim C6 counterexample: a present-but-empty period note is rendered as
the empty string, not substituted with "N/A" (`dict.get`'s default fires only
on an absent key), so "substituted with N/A when it is absent or empty" is
false. -/
theorem c6_counterexample :
    summaryParagraphText ⟨some (Value.str "J. Smith"), some (Value.int 12),
        some (Value.str "")⟩
      = "Analysis based on 12 calls. Period: " ∧
    summaryParagraphText ⟨some (Value.str "J. Smith"), some (Value.int 12),
        some (Value.str "")⟩
      ≠ "Analysis based on 12 calls. Period: N/A" ∧
    DocElem.paragraph "Analysis based on 12 calls. Period: " none
      ∈ generate_docx_elems
        { report_header := some ⟨some (Value.str "J. Smith"), some (Value.int 12),
            some (Value.str "")⟩,
          qualitative_summary_and_coaching_plan := none,
          detailed_quality_point_analysis := none } := by
  decide

/-- Claim C6 (amended): the summary paragraph interpolates the
analyzed-report count and the period note, substituting "N/A" exactly when
the key is absent; a present value is rendered verbatim, so an empty-string
note yields an empty slot rather than "N/A". -/
theorem c6_summary_paragraph (h : JsonHeader) :
    (h.number_of_reports_successfully_analyzed = none → h.analysis_period_note = none →
      summaryParagraphText h = "Analysis based on N/A calls. Period: N/A") ∧
    (∀ n : Int, ∀ t : String,
      h.number_of_reports_successfully_analyzed = some (Value.int n) →
      h.analysis_period_note = some (Value.str t) →
      summaryParagraphText h = "Analysis based on " ++ toString n ++ " calls. Period: " ++ t) ∧
    (h.analysis_period_note = some (Value.str "") →
      summaryParagraphText h = "Analysis based on "
        ++ (h.number_of_reports_successfully_analyzed.getD (Value.str "N/A")).render
        ++ " calls. Period: ") := by
  refine ⟨?_, ?_, ?_⟩
  · intro h1 h2
    simp only [summaryParagraphText, h1, h2]
    decide
  · intro n t h1 h2
    simp [summaryParagraphText, h1, h2, Value.render]
  · intro h2
    simp only [summaryParagraphText, h2, Option.getD_some, Value.render]
    simp [String.append_empty]

/-- Witness for C6 (amended): both header values absent renders both slots as
"N/A". -/
theorem c6_summary_paragraph_witness :
    summaryParagraphText ⟨some (Value.str "J. Smith"), none, none⟩
      = "Analysis based on N/A calls. Period: N/A" :=
  (c6_summary_paragraph ⟨some (Value.str "J. Smith"), none, none⟩).1 rfl rfl

/-- In the per-focus loop, a successful pass means none of the issued actions
queries faulted. -/
lemma fetchFocusItems_ok_noFault (env : FetchEnv) (rows : List CoachingFocusRow)
    (items : List FocusItem) (qs : List Query)
    (h : fetchFocusItems env rows = (.ok items, qs)) :
    ∀ q ∈ qs, env.faultAt q = none := by
  induction rows generalizing items qs with
  | nil =>
    simp only [fetchFocusItems, Prod.mk.injEq] at h
    obtain ⟨-, hqs⟩ := h
    subst hqs
    simp
  | cons f rest ih =>
    cases hf : env.faultAt (Query.actionsQuery f.CoachingFocusID) with
    | some e =>
      have hstep : fetchFocusItems env (f :: rest)
          = (.error e, [Query.actionsQuery f.CoachingFocusID]) := by
        simp [fetchFocusItems, hf]
      rw [hstep] at h
      simp at h
    | none =>
      cases hrec : fetchFocusItems env rest with
      | mk res qs2 =>
        cases res with
        | error e2 =>
          have hstep : fetchFocusItems env (f :: rest)
              = (.error e2, Query.actionsQuery f.CoachingFocusID :: qs2) := by
            simp [fetchFocusItems, hf, hrec]
          rw [hstep] at h
          simp at h
        | ok items2 =>
          have hstep : fetchFocusItems env (f :: rest)
              = (.ok (⟨some f.AreaText, some (actionsRows env.db f.CoachingFocusID)⟩
                    :: items2),
                 Query.actionsQuery f.CoachingFocusID :: qs2) := by
            simp [fetchFocusItems, hf, hrec]
          rw [hstep] at h
          injection h with h1 h2
          subst h2
          intro q hq
          rcases List.mem_cons.mp hq with hq1 | hq2
          · subst hq1; exact hf
          · exact ih items2 qs2 hrec q hq2

/-- In the per-focus loop, an aborted pass carries the message of a fault
raised at one of the issued actions queries. -/
lemma fetchFocusItems_error_hasFault (env : FetchEnv) (rows : List CoachingFocusRow)
    (e : String) (qs : List Query)
    (h : fetchFocusItems env rows = (.error e, qs)) :
    ∃ q, q ∈ qs ∧ env.faultAt q = some e := by
  induction rows generalizing qs with
  | nil =>
    simp [fetchFocusItems] at h
  | cons f rest ih =>
    cases hf : env.faultAt (Query.actionsQuery f.CoachingFocusID) with
    | some e2 =>
      have hstep : fetchFocusItems env (f :: rest)
          = (.error e2, [Query.actionsQuery f.CoachingFocusID]) := by
        simp [fetchFocusItems, hf]
      rw [hstep] at h
      injection h with h1 h2
      injection h1 with h1
      subst h1
      subst h2
      exact ⟨Query.actionsQuery f.CoachingFocusID, by simp, hf⟩
    | none =>
      cases hrec : fetchFocusItems env rest with
      | mk res qs2 =>
        cases res with
        | ok items2 =>
          have hstep : fetchFocusItems env (f :: rest)
              = (.ok (⟨some f.AreaText, some (actionsRows env.db f.CoachingFocusID)⟩
                    :: items2),
                 Query.actionsQuery f.CoachingFocusID :: qs2) := by
            simp [fetchFocusItems, hf, hrec]
          rw [hstep] at h
          simp at h
        | error e2 =>
          have hstep : fetchFocusItems env (f :: rest)
              = (.error e2, Query.actionsQuery f.CoachingFocusID :: qs2) := by
            simp [fetchFocusItems, hf, hrec]
          rw [hstep] at h
          injection h with h1 h2
          injection h1 with h1
          subst h1
          subst h2
          obtain ⟨q, hq, hfq⟩ := ih qs2 hrec
          exact ⟨q, by simp [hq], hfq⟩

/-- Full fault-conversion dichotomy for the assembler: either some executed
query (any of the six sites: root join, strengths, development areas,
coaching focus, per-focus actions, details) faulted, and then the outcome is
`None` with the dialog carrying that fault's message, or no executed query
faulted and no error is shown. -/
lemma fetch_fault_conversion (fenv : FetchEnv) (analysisId : Int) :
    (∃ q ∈ (fetch_combined_analysis_data_env fenv analysisId).trace, ∃ e,
      fenv.faultAt q = some e ∧
      (fetch_combined_analysis_data_env fenv analysisId).report = none ∧
      (fetch_combined_analysis_data_env fenv analysisId).errorShown
        = some (dbErrorMessage e)) ∨
    ((∀ q ∈ (fetch_combined_analysis_data_env fenv analysisId).trace,
        fenv.faultAt q = none) ∧
      (fetch_combined_analysis_data_env fenv analysisId).errorShown = none) := by
  cases h1 : fenv.faultAt (Query.mainJoin analysisId) with
  | some e =>
    have hE : fetch_combined_analysis_data_env fenv analysisId
        = ⟨none, some (dbErrorMessage e), [Query.mainJoin analysisId]⟩ := by
      simp [fetch_combined_analysis_data_env, h1]
    rw [hE]
    exact Or.inl ⟨Query.mainJoin analysisId, by simp, e, h1, rfl, rfl⟩
  | none =>
    cases h2 : mainJoinRows fenv.db analysisId with
    | nil =>
      have hE : fetch_combined_analysis_data_env fenv analysisId
          = ⟨none, none, [Query.mainJoin analysisId]⟩ := by
        simp [fetch_combined_analysis_data_env, h1, h2]
      rw [hE]
      refine Or.inr ⟨?_, rfl⟩
      intro q hq
      simp only [List.mem_singleton] at hq
      subst hq
      exact h1
    | cons p rest =>
      obtain ⟨c, a⟩ := p
      cases h3 : fenv.faultAt (Query.strengthsQuery analysisId) with
      | some e =>
        have hE : fetch_combined_analysis_data_env fenv analysisId
            = ⟨none, some (dbErrorMessage e),
               [Query.mainJoin analysisId, Query.strengthsQuery analysisId]⟩ := by
          simp [fetch_combined_analysis_data_env, h1, h2, h3]
        rw [hE]
        exact Or.inl ⟨Query.strengthsQuery analysisId, by simp, e, h3, rfl, rfl⟩
      | none =>
        cases h4 : fenv.faultAt (Query.devAreasQuery analysisId) with
        | some e =>
          have hE : fetch_combined_analysis_data_env fenv analysisId
              = ⟨none, some (dbErrorMessage e),
                 [Query.mainJoin analysisId, Query.strengthsQuery analysisId,
                  Query.devAreasQuery analysisId]⟩ := by
            simp [fetch_combined_analysis_data_env, h1, h2, h3, h4]
          rw [hE]
          exact Or.inl ⟨Query.devAreasQuery analysisId, by simp, e, h4, rfl, rfl⟩
        | none =>
          cases h5 : fenv.faultAt (Query.focusQuery analysisId) with
          | some e =>
            have hE : fetch_combined_analysis_data_env fenv analysisId
                = ⟨none, some (dbErrorMessage e),
                   [Query.mainJoin analysisId, Query.strengthsQuery analysisId,
                    Query.devAreasQuery analysisId, Query.focusQuery analysisId]⟩ := by
              simp [fetch_combined_analysis_data_env, h1, h2, h3, h4, h5]
            rw [hE]
            exact Or.inl ⟨Query.focusQuery analysisId, by simp, e, h5, rfl, rfl⟩
          | none =>
            cases h6 : fetchFocusItems fenv (coachingFocusRows fenv.db analysisId) with
            | mk res qs =>
              cases res with
              | error e =>
                have hE : fetch_combined_analysis_data_env fenv analysisId
                    = ⟨none, some (dbErrorMessage e),
                       Query.mainJoin analysisId :: Query.strengthsQuery analysisId ::
                         Query.devAreasQuery analysisId :: Query.focusQuery analysisId
                         :: qs⟩ := by
                  simp [fetch_combined_analysis_data_env, h1, h2, h3, h4, h5, h6]
                rw [hE]
                obtain ⟨q, hq, hfq⟩ := fetchFocusItems_error_hasFault fenv _ e qs h6
                exact Or.inl ⟨q, by simp [hq], e, hfq, rfl, rfl⟩
              | ok items =>
                cases h7 : fenv.faultAt (Query.detailsQuery analysisId) with
                | some e =>
                  have hE : fetch_combined_analysis_data_env fenv analysisId
                      = ⟨none, some (dbErrorMessage e),
                         Query.mainJoin analysisId :: Query.strengthsQuery analysisId ::
                           Query.devAreasQuery analysisId :: Query.focusQuery analysisId
                           :: (qs ++ [Query.detailsQuery analysisId])⟩ := by
                    simp [fetch_combined_analysis_data_env, h1, h2, h3, h4, h5, h6, h7]
                  rw [hE]
                  exact Or.inl ⟨Query.detailsQuery analysisId, by simp, e, h7, rfl, rfl⟩
                | none =>
                  have hE : (fetch_combined_analysis_data_env fenv analysisId).trace
                        = Query.mainJoin analysisId :: Query.strengthsQuery analysisId ::
                            Query.devAreasQuery analysisId :: Query.focusQuery analysisId
                            :: (qs ++ [Query.detailsQuery analysisId]) ∧
                      (fetch_combined_analysis_data_env fenv analysisId).errorShown
                        = none := by
                    simp [fetch_combined_analysis_data_env, h1, h2, h3, h4, h5, h6, h7]
                  refine Or.inr ⟨?_, hE.2⟩
                  rw [hE.1]
                  intro q hq
                  simp only [List.mem_cons, List.mem_append, List.mem_singleton,
                    List.not_mem_nil, or_false] at hq
                  rcases hq with rfl | rfl | rfl | rfl | hq | rfl
                  · exact h1
                  · exact h3
                  · exact h4
                  · exact h5
                  · exact fetchFocusItems_ok_noFault fenv _ items qs h6 q hq
                  · exact h7

/-- Claim C8: both operation boundaries convert internal faults into their
typed outcomes: the renderer returns `True` exactly when the save completed
(and then the document is the one written), and a save fault yields `False`
with the error dialog carrying the cause and nothing written; on the
assembler side, a report is returned only when no error was surfaced, a fault
raised by the root query yields `None` with the error dialog carrying the
cause, and in general a fault raised at any of the six executed query sites
yields `None` with the error dialog carrying that fault's cause, while a
fault-free run surfaces no error. -/
theorem c8_boundary_conversion (env : RenderEnv) (jd : JsonData) (path : String)
    (fenv : FetchEnv) (analysisId : Int) :
    ((generate_docx_from_combined_json env jd path).ok = true ↔
      env.saveFault path = none) ∧
    ((generate_docx_from_combined_json env jd path).ok = true ↔
      (generate_docx_from_combined_json env jd path).written
        = some (generate_docx_elems jd)) ∧
    (∀ e, env.saveFault path = some e →
      generate_docx_from_combined_json env jd path
        = ⟨false, some (docxErrorMessage e), none⟩) ∧
    ((fetch_combined_analysis_data_env fenv analysisId).report.isSome = true →
      (fetch_combined_analysis_data_env fenv analysisId).errorShown = none) ∧
    (∀ e, fenv.faultAt (Query.mainJoin analysisId) = some e →
      fetch_combined_analysis_data_env fenv analysisId
        = ⟨none, some (dbErrorMessage e), [Query.mainJoin analysisId]⟩) ∧
    ((∃ q ∈ (fetch_combined_analysis_data_env fenv analysisId).trace, ∃ e,
        fenv.faultAt q = some e ∧
        (fetch_combined_analysis_data_env fenv analysisId).report = none ∧
        (fetch_combined_analysis_data_env fenv analysisId).errorShown
          = some (dbErrorMessage e)) ∨
      ((∀ q ∈ (fetch_combined_analysis_data_env fenv analysisId).trace,
          fenv.faultAt q = none) ∧
        (fetch_combined_analysis_data_env fenv analysisId).errorShown = none)) := by
  refine ⟨?_, ?_, ?_, ?_, ?_, fetch_fault_conversion fenv analysisId⟩
  · unfold generate_docx_from_combined_json
    cases env.saveFault path <;> simp
  · unfold generate_docx_from_combined_json
    cases env.saveFault path <;> simp
  · intro e he
    simp [generate_docx_from_combined_json, he]
  · cases h1 : fenv.faultAt (Query.mainJoin analysisId) with
    | some e => simp [fetch_combined_analysis_data_env, h1]
    | none =>
      cases h2 : mainJoinRows fenv.db analysisId with
      | nil => simp [fetch_combined_analysis_data_env, h1, h2]
      | cons p rest =>
        obtain ⟨c, a⟩ := p
        cases h3 : fenv.faultAt (Query.strengthsQuery analysisId) with
        | some e => simp [fetch_combined_analysis_data_env, h1, h2, h3]
        | none =>
          cases h4 : fenv.faultAt (Query.devAreasQuery analysisId) with
          | some e => simp [fetch_combined_analysis_data_env, h1, h2, h3, h4]
          | none =>
            cases h5 : fenv.faultAt (Query.focusQuery analysisId) with
            | some e => simp [fetch_combined_analysis_data_env, h1, h2, h3, h4, h5]
            | none =>
              cases h6 : fetchFocusItems fenv (coachingFocusRows fenv.db analysisId) with
              | mk res qs =>
                cases res with
                | error e =>
                  simp [fetch_combined_analysis_data_env, h1, h2, h3, h4, h5, h6]
                | ok items =>
                  cases h7 : fenv.faultAt (Query.detailsQuery analysisId) with
                  | some e =>
                    simp [fetch_combined_analysis_data_env, h1, h2, h3, h4, h5, h6, h7]
                  | none =>
                    simp [fetch_combined_analysis_data_env, h1, h2, h3, h4, h5, h6, h7]
  · intro e he
    simp [fetch_combined_analysis_data_env, he]

/-- Witness for C8: a failing save is converted to `False` with the dialog
carrying the cause. -/
theorem c8_boundary_conversion_witness :
    generate_docx_from_combined_json ⟨fun _ => some "disk full"⟩ exampleJson "out.docx"
      = ⟨false, some (docxErrorMessage "disk full"), none⟩ :=
  (c8_boundary_conversion ⟨fun _ => some "disk full"⟩ exampleJson "out.docx"
    (noFaultEnv exampleDb) 42).2.2.1 "disk full" rfl

/-! ## Structural counters over the rendered document (for C4) -/

/-- Coaching-focus sub-headings are exactly the level-3 headings. -/
def isLevel3Heading (e : DocElem) : Bool :=
  match e with
  | .heading l _ => l == 3
  | _ => false

/-- Numbered action paragraphs are exactly the `ListNumber`-styled paragraphs. -/
def isNumberedItem (e : DocElem) : Bool :=
  match e with
  | .paragraph _ (some sty) => sty == "ListNumber"
  | _ => false

def level3HeadingText (e : DocElem) : Option String :=
  match e with
  | .heading l t => if l = 3 then some t else none
  | _ => none

def numberedItemText (e : DocElem) : Option String :=
  match e with
  | .paragraph t (some sty) => if sty = "ListNumber" then some t else none
  | _ => none

/-- The coaching-foci list the renderer iterates over. -/
def fociOf (jd : JsonData) : List FocusItem :=
  (jd.qualitative_summary_and_coaching_plan.getD emptyJsonSummary).consolidated_coaching_focus.getD []

lemma generate_docx_elems_eq (jd : JsonData) :
    generate_docx_elems jd =
      titleSection (jd.report_header.getD emptyJsonHeader)
        ++ strengthsSection (jd.qualitative_summary_and_coaching_plan.getD emptyJsonSummary)
        ++ devAreasSection (jd.qualitative_summary_and_coaching_plan.getD emptyJsonSummary)
        ++ coachingSection (jd.qualitative_summary_and_coaching_plan.getD emptyJsonSummary)
        ++ qpaSection (jd.detailed_quality_point_analysis.getD []) := rfl

lemma countP_level3_titleSection (h : JsonHeader) :
    (titleSection h).countP isLevel3Heading = 0 := by
  simp [titleSection, isLevel3Heading, List.countP_cons]

lemma countP_level3_strengthsSection (qs : JsonSummary) :
    (strengthsSection qs).countP isLevel3Heading = 0 := by
  unfold strengthsSection
  by_cases h : qs.overall_strengths_observed.getD [] = [] <;>
    simp [h, List.countP_cons, List.countP_map, isLevel3Heading, Function.comp]

lemma countP_level3_devAreasSection (qs : JsonSummary) :
    (devAreasSection qs).countP isLevel3Heading = 0 := by
  unfold devAreasSection
  by_cases h : qs.overall_areas_for_development.getD [] = [] <;>
    simp [h, List.countP_cons, List.countP_map, isLevel3Heading, Function.comp]

lemma countP_level3_qpaSection (l : List QpaItem) :
    (qpaSection l).countP isLevel3Heading = 0 := by
  unfold qpaSection
  by_cases h : l = [] <;> simp [h, List.countP_cons, isLevel3Heading]

lemma countP_level3_focusSection (f : FocusItem) :
    (focusSection f).countP isLevel3Heading = 1 := by
  unfold focusSection
  by_cases h : f.specific_actions.getD [] = [] <;>
    simp [h, List.countP_cons, List.countP_map, isLevel3Heading, Function.comp]

lemma countP_level3_coachingSection (qs : JsonSummary) :
    (coachingSection qs).countP isLevel3Heading =
      (qs.consolidated_coaching_focus.getD []).length := by
  unfold coachingSection
  by_cases h : qs.consolidated_coaching_focus.getD [] = []
  · simp [h]
  · have hc : (List.countP isLevel3Heading ∘ focusSection) = fun _ => 1 :=
      funext fun f => countP_level3_focusSection f
    simp [h, List.countP_cons, List.countP_flatten, isLevel3Heading, List.map_map, hc]

lemma countP_numbered_titleSection (h : JsonHeader) :
    (titleSection h).countP isNumberedItem = 0 := by
  simp [titleSection, isNumberedItem, List.countP_cons]

lemma countP_numbered_strengthsSection (qs : JsonSummary) :
    (strengthsSection qs).countP isNumberedItem = 0 := by
  unfold strengthsSection
  by_cases h : qs.overall_strengths_observed.getD [] = [] <;>
    simp [h, List.countP_cons, List.countP_map, isNumberedItem, Function.comp]

lemma countP_numbered_devAreasSection (qs : JsonSummary) :
    (devAreasSection qs).countP isNumberedItem = 0 := by
  unfold devAreasSection
  by_cases h : qs.overall_areas_for_development.getD [] = [] <;>
    simp [h, List.countP_cons, List.countP_map, isNumberedItem, Function.comp]

lemma countP_numbered_qpaSection (l : List QpaItem) :
    (qpaSection l).countP isNumberedItem = 0 := by
  unfold qpaSection
  by_cases h : l = [] <;> simp [h, List.countP_cons, isNumberedItem]

lemma countP_numbered_focusSection (f : FocusItem) :
    (focusSection f).countP isNumberedItem = (f.specific_actions.getD []).length := by
  unfold focusSection
  by_cases h : f.specific_actions.getD [] = [] <;>
    simp [h, List.countP_cons, List.countP_map, isNumberedItem, Function.comp]

lemma countP_numbered_coachingSection (qs : JsonSummary) :
    (coachingSection qs).countP isNumberedItem =
      ((qs.consolidated_coaching_focus.getD []).map
        (fun f => (f.specific_actions.getD []).length)).sum := by
  unfold coachingSection
  by_cases h : qs.consolidated_coaching_focus.getD [] = []
  · simp [h]
  · have hc : (List.countP isNumberedItem ∘ focusSection)
        = fun f => (f.specific_actions.getD []).length :=
      funext fun f => countP_numbered_focusSection f
    simp [h, List.countP_cons, List.countP_flatten, isNumberedItem, List.map_map, hc]

lemma flatten_map_singleton {α β : Type} (g : α → β) (l : List α) :
    (l.map (fun a => [g a])).flatten = l.map g := by
  induction l with
  | nil => rfl
  | cons a rest ih => simp [ih]

lemma filterMap_level3_titleSection (h : JsonHeader) :
    (titleSection h).filterMap level3HeadingText = [] := by
  simp [titleSection, level3HeadingText]

lemma filterMap_level3_strengthsSection (qs : JsonSummary) :
    (strengthsSection qs).filterMap level3HeadingText = [] := by
  unfold strengthsSection
  by_cases h : qs.overall_strengths_observed.getD [] = [] <;>
    simp [h, level3HeadingText, List.filterMap_map, Function.comp]

lemma filterMap_level3_devAreasSection (qs : JsonSummary) :
    (devAreasSection qs).filterMap level3HeadingText = [] := by
  unfold devAreasSection
  by_cases h : qs.overall_areas_for_development.getD [] = [] <;>
    simp [h, level3HeadingText, List.filterMap_map, Function.comp]

lemma filterMap_level3_qpaSection (l : List QpaItem) :
    (qpaSection l).filterMap level3HeadingText = [] := by
  unfold qpaSection
  by_cases h : l = [] <;> simp [h, level3HeadingText]

lemma filterMap_level3_focusSection (f : FocusItem) :
    (focusSection f).filterMap level3HeadingText = [f.area.getD "Focus Area"] := by
  unfold focusSection
  by_cases h : f.specific_actions.getD [] = [] <;>
    simp [h, level3HeadingText, List.filterMap_map, Function.comp]

lemma filterMap_level3_coachingSection (qs : JsonSummary) :
    (coachingSection qs).filterMap level3HeadingText =
      (qs.consolidated_coaching_focus.getD []).map (fun f => f.area.getD "Focus Area") := by
  unfold coachingSection
  by_cases h : qs.consolidated_coaching_focus.getD [] = []
  · simp [h]
  · have hc : (List.filterMap level3HeadingText ∘ focusSection)
        = fun f => [f.area.getD "Focus Area"] :=
      funext fun f => filterMap_level3_focusSection f
    simp [h, level3HeadingText, List.filterMap_flatten, List.map_map, hc,
      flatten_map_singleton]

lemma filterMap_numbered_titleSection (h : JsonHeader) :
    (titleSection h).filterMap numberedItemText = [] := by
  simp [titleSection, numberedItemText]

lemma filterMap_numbered_strengthsSection (qs : JsonSummary) :
    (strengthsSection qs).filterMap numberedItemText = [] := by
  unfold strengthsSection
  by_cases h : qs.overall_strengths_observed.getD [] = [] <;>
    simp [h, numberedItemText, List.filterMap_map, Function.comp]

lemma filterMap_numbered_devAreasSection (qs : JsonSummary) :
    (devAreasSection qs).filterMap numberedItemText = [] := by
  unfold devAreasSection
  by_cases h : qs.overall_areas_for_development.getD [] = [] <;>
    simp [h, numberedItemText, List.filterMap_map, Function.comp]

lemma filterMap_numbered_qpaSection (l : List QpaItem) :
    (qpaSection l).filterMap numberedItemText = [] := by
  unfold qpaSection
  by_cases h : l = [] <;> simp [h, numberedItemText]

lemma filterMap_numbered_focusSection (f : FocusItem) :
    (focusSection f).filterMap numberedItemText = f.specific_actions.getD [] := by
  unfold focusSection
  have hsome : (numberedItemText ∘ fun r => DocElem.paragraph r (some "ListNumber"))
      = some :=
    funext fun r => by simp [numberedItemText]
  by_cases h : f.specific_actions.getD [] = [] <;>
    simp [h, numberedItemText, List.filterMap_map, hsome]

lemma filterMap_numbered_coachingSection (qs : JsonSummary) :
    (coachingSection qs).filterMap numberedItemText =
      ((qs.consolidated_coaching_focus.getD []).map
        (fun f => f.specific_actions.getD [])).flatten := by
  unfold coachingSection
  by_cases h : qs.consolidated_coaching_focus.getD [] = []
  · simp [h]
  · have hc : (List.filterMap numberedItemText ∘ focusSection)
        = fun f => f.specific_actions.getD [] :=
      funext fun f => filterMap_numbered_focusSection f
    simp [h, numberedItemText, List.filterMap_flatten, List.map_map, hc]

/-- Claim C4: the rendered document carries exactly one level-3 sub-heading
per coaching focus (with the focus's area label, in list order), each focus
section carries exactly one numbered paragraph per action, and the numbered
paragraphs across the document are the concatenation of the foci's action
lists in order. -/
theorem c4_coaching_counts (jd : JsonData) :
    (generate_docx_elems jd).countP isLevel3Heading = (fociOf jd).length ∧
    (generate_docx_elems jd).filterMap level3HeadingText =
      (fociOf jd).map (fun f => f.area.getD "Focus Area") ∧
    (∀ f : FocusItem,
      (focusSection f).countP isNumberedItem = (f.specific_actions.getD []).length) ∧
    (generate_docx_elems jd).countP isNumberedItem =
      ((fociOf jd).map (fun f => (f.specific_actions.getD []).length)).sum ∧
    (generate_docx_elems jd).filterMap numberedItemText =
      ((fociOf jd).map (fun f => f.specific_actions.getD [])).flatten := by
  refine ⟨?_, ?_, fun f => countP_numbered_focusSection f, ?_, ?_⟩
  · rw [generate_docx_elems_eq]
    simp [List.countP_append, countP_level3_titleSection, countP_level3_strengthsSection,
      countP_level3_devAreasSection, countP_level3_coachingSection,
      countP_level3_qpaSection, fociOf]
  · rw [generate_docx_elems_eq]
    simp [List.filterMap_append, filterMap_level3_titleSection,
      filterMap_level3_strengthsSection, filterMap_level3_devAreasSection,
      filterMap_level3_coachingSection, filterMap_level3_qpaSection, fociOf]
  · rw [generate_docx_elems_eq]
    simp [List.countP_append, countP_numbered_titleSection,
      countP_numbered_strengthsSection, countP_numbered_devAreasSection,
      countP_numbered_coachingSection, countP_numbered_qpaSection, fociOf]
  · rw [generate_docx_elems_eq]
    simp [List.filterMap_append, filterMap_numbered_titleSection,
      filterMap_numbered_strengthsSection, filterMap_numbered_devAreasSection,
      filterMap_numbered_coachingSection, filterMap_numbered_qpaSection, fociOf]

/-! ## Section-presence characterizations (for C7 and C10) -/

def qsOf (jd : JsonData) : JsonSummary :=
  jd.qualitative_summary_and_coaching_plan.getD emptyJsonSummary

def qpaOf (jd : JsonData) : List QpaItem :=
  jd.detailed_quality_point_analysis.getD []

lemma heading2_not_mem_titleSection (t : String) (h : JsonHeader) :
    DocElem.heading 2 t ∉ titleSection h := by
  simp [titleSection]

lemma heading2_mem_strengthsSection (t : String) (qs : JsonSummary) :
    DocElem.heading 2 t ∈ strengthsSection qs ↔
      (t = strengthsHeadingText ∧ qs.overall_strengths_observed.getD [] ≠ []) := by
  unfold strengthsSection
  by_cases h : qs.overall_strengths_observed.getD [] = [] <;> simp [h]

lemma heading2_mem_devAreasSection (t : String) (qs : JsonSummary) :
    DocElem.heading 2 t ∈ devAreasSection qs ↔
      (t = devAreasHeadingText ∧ qs.overall_areas_for_development.getD [] ≠ []) := by
  unfold devAreasSection
  by_cases h : qs.overall_areas_for_development.getD [] = [] <;> simp [h]

lemma heading2_not_mem_focusSection (t : String) (f : FocusItem) :
    DocElem.heading 2 t ∉ focusSection f := by
  unfold focusSection
  by_cases h : f.specific_actions.getD [] = [] <;> simp [h]

lemma heading2_mem_coachingSection (t : String) (qs : JsonSummary) :
    DocElem.heading 2 t ∈ coachingSection qs ↔
      (t = coachingHeadingText ∧ qs.consolidated_coaching_focus.getD [] ≠ []) := by
  unfold coachingSection
  by_cases h : qs.consolidated_coaching_focus.getD [] = []
  · simp [h]
  · simp [h, List.mem_flatten, List.mem_map, heading2_not_mem_focusSection]

lemma heading2_mem_qpaSection (t : String) (l : List QpaItem) :
    DocElem.heading 2 t ∈ qpaSection l ↔ (t = qpaHeadingText ∧ l ≠ []) := by
  unfold qpaSection
  by_cases h : l = [] <;> simp [h]

/-- Claim C7: rendering is total, a non-empty child collection always
contributes its section heading, and an empty one suppresses the section's
heading and content entirely. -/
theorem c7_empty_sections (jd : JsonData) :
    (DocElem.heading 2 strengthsHeadingText ∈ generate_docx_elems jd ↔
      (qsOf jd).overall_strengths_observed.getD [] ≠ []) ∧
    (DocElem.heading 2 devAreasHeadingText ∈ generate_docx_elems jd ↔
      (qsOf jd).overall_areas_for_development.getD [] ≠ []) ∧
    (DocElem.heading 2 coachingHeadingText ∈ generate_docx_elems jd ↔
      (qsOf jd).consolidated_coaching_focus.getD [] ≠ []) ∧
    (DocElem.heading 2 qpaHeadingText ∈ generate_docx_elems jd ↔ qpaOf jd ≠ []) ∧
    ((qsOf jd).overall_strengths_observed.getD [] = [] →
      strengthsSection (qsOf jd) = []) ∧
    ((qsOf jd).overall_areas_for_development.getD [] = [] →
      devAreasSection (qsOf jd) = []) ∧
    ((qsOf jd).consolidated_coaching_focus.getD [] = [] →
      coachingSection (qsOf jd) = []) ∧
    (qpaOf jd = [] → qpaSection (qpaOf jd) = []) := by
  have hne1 : strengthsHeadingText ≠ devAreasHeadingText := by decide
  have hne2 : strengthsHeadingText ≠ coachingHeadingText := by decide
  have hne3 : strengthsHeadingText ≠ qpaHeadingText := by decide
  have hne4 : devAreasHeadingText ≠ strengthsHeadingText := by decide
  have hne5 : devAreasHeadingText ≠ coachingHeadingText := by decide
  have hne6 : devAreasHeadingText ≠ qpaHeadingText := by decide
  have hne7 : coachingHeadingText ≠ strengthsHeadingText := by decide
  have hne8 : coachingHeadingText ≠ devAreasHeadingText := by decide
  have hne9 : coachingHeadingText ≠ qpaHeadingText := by decide
  have hne10 : qpaHeadingText ≠ strengthsHeadingText := by decide
  have hne11 : qpaHeadingText ≠ devAreasHeadingText := by decide
  have hne12 : qpaHeadingText ≠ coachingHeadingText := by decide
  refine ⟨?_, ?_, ?_, ?_, ?_, ?_, ?_, ?_⟩
  · rw [generate_docx_elems_eq]
    simp [List.mem_append, heading2_not_mem_titleSection, heading2_mem_strengthsSection,
      heading2_mem_devAreasSection, heading2_mem_coachingSection, heading2_mem_qpaSection,
      hne1, hne2, hne3, qsOf, qpaOf]
  · rw [generate_docx_elems_eq]
    simp [List.mem_append, heading2_not_mem_titleSection, heading2_mem_strengthsSection,
      heading2_mem_devAreasSection, heading2_mem_coachingSection, heading2_mem_qpaSection,
      hne4, hne5, hne6, qsOf, qpaOf]
  · rw [generate_docx_elems_eq]
    simp [List.mem_append, heading2_not_mem_titleSection, heading2_mem_strengthsSection,
      heading2_mem_devAreasSection, heading2_mem_coachingSection, heading2_mem_qpaSection,
      hne7, hne8, hne9, qsOf, qpaOf]
  · rw [generate_docx_elems_eq]
    simp [List.mem_append, heading2_not_mem_titleSection, heading2_mem_strengthsSection,
      heading2_mem_devAreasSection, heading2_mem_coachingSection, heading2_mem_qpaSection,
      hne10, hne11, hne12, qsOf, qpaOf]
  · intro h; simp [strengthsSection, h]
  · intro h; simp [devAreasSection, h]
  · intro h; simp [coachingSection, h]
  · intro h; simp [qpaSection, h]

/-- Witness for C7: the scenario report has a strengths heading (non-empty
strengths list) and its empty development-areas list renders nothing. -/
theorem c7_empty_sections_witness :
    DocElem.heading 2 strengthsHeadingText ∈ generate_docx_elems exampleJson :=
  (c7_empty_sections exampleJson).1.mpr (by decide)

/-- Claim C10: rendering succeeds on records missing any or all top-level
sections: a missing header renders the title heading with agent name "N/A",
a missing summary or detail section renders exactly as the corresponding
empty collection (hence is suppressed), and the all-missing record renders to
just the title heading and summary paragraph. -/
theorem c10_missing_top_level (jd : JsonData) :
    (jd.report_header = none → (generate_docx_elems jd).head? =
      some (DocElem.heading 1 "Performance Trend Analysis & Coaching Report: N/A")) ∧
    (jd.qualitative_summary_and_coaching_plan = none →
      generate_docx_elems jd = generate_docx_elems
        { jd with qualitative_summary_and_coaching_plan := some emptyJsonSummary }) ∧
    (jd.detailed_quality_point_analysis = none →
      generate_docx_elems jd = generate_docx_elems
        { jd with detailed_quality_point_analysis := some [] }) ∧
    generate_docx_elems ⟨none, none, none⟩ =
      [DocElem.heading 1 "Performance Trend Analysis & Coaching Report: N/A",
       DocElem.paragraph "Analysis based on N/A calls. Period: N/A" none] := by
  refine ⟨?_, ?_, ?_, by decide⟩
  · intro h
    rw [generate_docx_elems_eq, h]
    simp only [Option.getD_none, titleSection, emptyJsonHeader, List.cons_append,
      List.head?_cons, Option.some.injEq, DocElem.heading.injEq]
    decide
  · intro h
    rw [generate_docx_elems_eq, generate_docx_elems_eq, h]
    rfl
  · intro h
    rw [generate_docx_elems_eq, generate_docx_elems_eq, h]
    rfl

/-- Witness for C10: a record with only detail rows but no header and no
summary still renders, with "N/A" as the agent name. -/
theorem c10_missing_top_level_witness :
    (generate_docx_elems ⟨none, none, some [exampleQpaItem]⟩).head? =
      some (DocElem.heading 1 "Performance Trend Analysis & Coaching Report: N/A") :=
  (c10_missing_top_level ⟨none, none, some [exampleQpaItem]⟩).1 rfl

end PhoneQA
